import Mathlib

/-!
Verification of the order-lifecycle / webhook-reconciliation core of a
Telegram storefront backed by the MoySklad ERP.

The development shallowly embeds the relevant TypeScript source:
JavaScript numbers are modelled as rationals (ℚ), `Math.round` as
`jround` (floor of x + 1/2), nullable values as `Option`, thrown
exceptions as `Except`/`Option` results, JS `Map` objects as
association lists, and the asynchronous ERP / Telegram calls as
explicit environment functions (a `none`/failure value models a call
that rejects, i.e. throws at its `await` site).
-/

set_option linter.unusedVariables false

/-- JS `Math.round`: round half towards positive infinity. -/
def jround (x : ℚ) : ℤ := ⌊x + 1 / 2⌋

/-- JS `Math.round(x * 100) / 100`, the two-decimal rounding used for money. -/
def round2 (x : ℚ) : ℚ := ((jround (x * 100) : ℚ)) / 100

theorem jround_intCast (n : ℤ) : jround ((n : ℚ)) = n := by
  unfold jround
  rw [add_comm, Int.floor_add_int]
  norm_num

theorem round2_intCast (n : ℤ) : round2 ((n : ℚ)) = (n : ℚ) := by
  unfold round2
  have h : ((n : ℚ)) * 100 = (((n * 100 : ℤ)) : ℚ) := by push_cast; ring
  rw [h, jround_intCast]
  push_cast
  ring

/-! ## Money boundary (claim C9)

Local storage keeps integer minor units.  At the ERP boundary the code
divides by 100 (e.g. `price: i.price / 100` in the draft-order handler
of `routes/api.ts` and `sum / 100` throughout `mosklad.ts`), and when a
major-unit amount is written back to the ERP it is multiplied by 100 and
rounded (`price: Math.round(item.price * 100)` in `createCustomerOrder`).
-/

/-- Minor units → major units, as done when local prices are sent across the
ERP boundary (`i.price / 100`). -/
def minorToMajor (n : ℤ) : ℚ := (n : ℚ) / 100

/-- Major units → minor units, as done by `createCustomerOrder` when building
ERP positions (`Math.round(item.price * 100)`). -/
def majorToMinor (x : ℚ) : ℤ := jround (x * 100)

/-- C9: converting an integer minor-unit amount to decimal major units at the
ERP boundary and back returns the original integer — zero precision loss. -/
theorem c9_money_roundtrip (n : ℤ) : majorToMinor (minorToMajor n) = n := by
  unfold majorToMinor minorToMajor
  have h : ((n : ℚ)) / 100 * 100 = ((n : ℚ)) := by
    field_simp
  rw [h, jround_intCast]

/-! ## Order/shipment reconciliation (`demand-pdf.ts`, claim C1)

`buildDemandPdfData` in the source fetches the parent order, its
positions and the position lists of every shipment (demand) issued
against the order, then runs a pure reconciliation.  The embedding
below models that pure body; the fetched data are parameters.  The JS
`Map` objects become association lists with `Map.get`/`Map.set`
semantics.
-/

/-- A demand/order line as returned by `listDemandPositions` /
`listCustomerOrderPositions` (prices already divided by 100 there). -/
structure DemandPosition where
  assortmentId : Option String
  name : String
  quantity : ℚ
  price : Option ℚ
  deriving Repr, DecidableEq

/-- An output line of `buildDemandPdfData`. -/
structure DemandPdfPosition where
  assortmentId : Option String
  name : String
  quantity : ℚ
  price : Option ℚ
  remainingQty : Option ℚ
  remainingSum : Option ℚ
  deriving Repr, DecidableEq

/-- `Map.get`: value of the entry for key `k`, if any. -/
def mget (m : List (String × ℚ)) (k : String) : Option ℚ :=
  (m.find? (fun p => p.1 == k)).map Prod.snd

/-- `Map.has`. -/
def mhas (m : List (String × ℚ)) (k : String) : Bool :=
  (m.find? (fun p => p.1 == k)).isSome

/-- `Map.set`: replace the entry for `k` if present, else append it. -/
def mset (m : List (String × ℚ)) (k : String) (v : ℚ) : List (String × ℚ) :=
  if mhas m k then m.map (fun p => if p.1 == k then (k, v) else p) else m ++ [(k, v)]

/-- `map.set(k, (map.get(k) || 0) + q)`, the accumulation step used throughout
`buildDemandPdfData`. -/
def maddQty (m : List (String × ℚ)) (k : String) (q : ℚ) : List (String × ℚ) :=
  mset m k ((mget m k).getD 0 + q)

/-- Splits a character list into maximal whitespace-free words (helper for
`normalizeName`; implemented structurally so that it evaluates in proofs). -/
def splitWsAux : List Char → List Char → List (List Char)
  | [], acc => if acc = [] then [] else [acc.reverse]
  | c :: cs, acc =>
    if c.isWhitespace then
      if acc = [] then splitWsAux cs []
      else acc.reverse :: splitWsAux cs []
    else splitWsAux cs (c :: acc)

/-- Joins words with single spaces. -/
def joinSp : List (List Char) → List Char
  | [] => []
  | [w] => w
  | w :: ws => w ++ ' ' :: joinSp ws

/-- `normalizeName`: trim, collapse internal whitespace runs to one space,
lowercase (`name.trim().replace(/\s+/g, " ").toLowerCase()`). -/
def normalizeName (name : String) : String :=
  String.mk ((joinSp (splitWsAux name.data [])).map Char.toLower)

/-- Quantity maps of the current shipment, keyed by assortment id and by
normalized name (source lines 47–57; `if (pos.assortmentId)` is JS truthiness,
so the empty string does not count as an id). -/
def demandQtyMaps (demandPositions : List DemandPosition) :
    (List (String × ℚ)) × (List (String × ℚ)) :=
  demandPositions.foldl
    (fun acc pos =>
      let key := normalizeName pos.name
      let byName := if key ≠ "" then maddQty acc.2 key pos.quantity else acc.2
      let byId :=
        match pos.assortmentId with
        | some aid => if aid ≠ "" then maddQty acc.1 aid pos.quantity else acc.1
        | none => acc.1
      (byId, byName))
    ([], [])

/-- The four aggregation maps built from the parent order positions
(source lines 59–72). -/
structure OrderMaps where
  qtyById : List (String × ℚ)
  priceById : List (String × ℚ)
  qtyByName : List (String × ℚ)
  priceByName : List (String × ℚ)
  deriving Repr, DecidableEq

def orderAggMaps (orderPositions : List DemandPosition) : OrderMaps :=
  orderPositions.foldl
    (fun m pos =>
      let key := normalizeName pos.name
      let qtyByName := if key ≠ "" then maddQty m.qtyByName key pos.quantity else m.qtyByName
      let priceByName :=
        if key ≠ "" then
          match pos.price with
          | some p => mset m.priceByName key p
          | none => m.priceByName
        else m.priceByName
      match pos.assortmentId with
      | some aid =>
        if aid ≠ "" then
          { qtyById := maddQty m.qtyById aid pos.quantity
            priceById :=
              match pos.price with
              | some p => mset m.priceById aid p
              | none => m.priceById
            qtyByName := qtyByName
            priceByName := priceByName }
        else { m with qtyByName := qtyByName, priceByName := priceByName }
      | none => { m with qtyByName := qtyByName, priceByName := priceByName })
    ⟨[], [], [], []⟩

/-- Shipped-to-date aggregation over the position lists of all of the order's
demands: quantity by id, quantity by name, and the shipped monetary total,
with the unit price resolved as `orderPriceById ?? orderPriceByName ?? pos.price`
(source lines 85–105). -/
def shippedAgg (om : OrderMaps) (allLists : List (List DemandPosition)) :
    (List (String × ℚ)) × (List (String × ℚ)) × ℚ :=
  (allLists.flatten).foldl
    (fun acc pos =>
      let key := normalizeName pos.name
      let byName := if key ≠ "" then maddQty acc.2.1 key pos.quantity else acc.2.1
      let byId :=
        match pos.assortmentId with
        | some aid => if aid ≠ "" then maddQty acc.1 aid pos.quantity else acc.1
        | none => acc.1
      let unitPrice : Option ℚ :=
        match pos.assortmentId with
        | some aid =>
          if aid ≠ "" then (mget om.priceById aid <|> mget om.priceByName key) <|> pos.price
          else mget om.priceByName key <|> pos.price
        | none => mget om.priceByName key <|> pos.price
      let total :=
        match unitPrice with
        | some p => acc.2.2 + p * pos.quantity
        | none => acc.2.2
      (byId, byName, total))
    ([], [], 0)

/-- `orderPositions.reduce(...)` recomputing the order total from its lines
(source lines 108–111). -/
def computedTotalOf (orderPositions : List DemandPosition) : ℚ :=
  orderPositions.foldl
    (fun s pos =>
      match pos.price with
      | some p => s + p * pos.quantity
      | none => s)
    0

/-- The authoritative order total and the resulting left-to-pay figure
(source lines 107, 112–120): the stated sum (divided by 100) when positive,
else the recomputed total when positive, else none; left-to-pay is
`max(0, round2(total − shippedTotal))`. -/
def leftToPayOf (orderSum : Option ℚ) (computedTotal shippedTotal : ℚ) : Option ℚ :=
  let rawOrderTotal : Option ℚ := orderSum.map (fun s => s / 100)
  let orderTotal : Option ℚ :=
    match rawOrderTotal with
    | some t => if 0 < t then some t else if 0 < computedTotal then some computedTotal else none
    | none => if 0 < computedTotal then some computedTotal else none
  orderTotal.map (fun t => max 0 (round2 (t - shippedTotal)))

/-- The reconciled output line for one order position (source lines 122–150):
remaining quantity is `max(0, ordered − shipped)`, matched by assortment id
when the order line has one, by normalized name otherwise; the unit price is
the order line's own price, falling back to the by-name order price map. -/
def pdfPositionOfOrderLine (om : OrderMaps)
    (shippedById shippedByName demandById demandByName : List (String × ℚ))
    (pos : DemandPosition) : DemandPdfPosition :=
  let key := normalizeName pos.name
  let hasIdMatch :=
    match pos.assortmentId with
    | some aid => aid ≠ "" && mhas om.qtyById aid
    | none => false
  let aid := pos.assortmentId.getD ""
  let orderedQty : ℚ :=
    if hasIdMatch then (mget om.qtyById aid).getD 0 else (mget om.qtyByName key).getD 0
  let shippedQty : ℚ :=
    if hasIdMatch then (mget shippedById aid).getD 0 else (mget shippedByName key).getD 0
  let currentQty : ℚ :=
    if hasIdMatch then (mget demandById aid).getD 0 else (mget demandByName key).getD 0
  let remainingQty : ℚ := max 0 (orderedQty - shippedQty)
  let unitPrice : Option ℚ :=
    match pos.price with
    | some p => some p
    | none => mget om.priceByName key
  { assortmentId := pos.assortmentId
    name := pos.name
    quantity := currentQty
    price := unitPrice
    remainingQty := some remainingQty
    remainingSum := unitPrice.map (fun p => remainingQty * p) }

/-- Shipment lines of the current demand that match no order line by id or by
name are appended with null remaining figures (source lines 152–165). -/
def unmatchedDemandLines (om : OrderMaps) (demandPositions : List DemandPosition) :
    List DemandPdfPosition :=
  demandPositions.filterMap
    (fun pos =>
      let key := normalizeName pos.name
      let hasIdMatch :=
        match pos.assortmentId with
        | some aid => aid ≠ "" && mhas om.qtyById aid
        | none => false
      let hasNameMatch := key ≠ "" && mhas om.qtyByName key
      if hasIdMatch || hasNameMatch then none
      else
        some { assortmentId := pos.assortmentId
               name := pos.name
               quantity := pos.quantity
               price := pos.price
               remainingQty := none
               remainingSum := none })

/-- The pure body of `buildDemandPdfData`, given the fetched order sum (raw
minor units), the order positions, the position lists of all of the order's
demands, and the current demand's positions. -/
def buildDemandPdfData (orderSum : Option ℚ) (orderPositions : List DemandPosition)
    (allShipmentPositionLists : List (List DemandPosition))
    (demandPositions : List DemandPosition) :
    List DemandPdfPosition × Option ℚ :=
  let dm := demandQtyMaps demandPositions
  let om := orderAggMaps orderPositions
  let sh := shippedAgg om allShipmentPositionLists
  (orderPositions.map (pdfPositionOfOrderLine om sh.1 sh.2.1 dm.1 dm.2)
      ++ unmatchedDemandLines om demandPositions,
   leftToPayOf orderSum (computedTotalOf orderPositions) sh.2.2)

/-- The order of claim C1: line A (qty 10, price 100, with an assortment id)
and line B (qty 5, price 200, no assortment id — exercising the name
fallback). -/
def c1OrderPositions : List DemandPosition :=
  [⟨some "A1", "Alpha", 10, some 100⟩, ⟨none, "Bravo", 5, some 200⟩]

/-- The two shipments of claim C1: (A,4), then (A,3),(B,5). -/
def c1ShipmentLists : List (List DemandPosition) :=
  [[⟨some "A1", "Alpha", 4, some 100⟩],
   [⟨some "A1", "Alpha", 3, some 100⟩, ⟨none, "Bravo", 5, some 200⟩]]

/-- Expected reconciliation: A remaining 3 worth 300, B remaining 0 worth 0. -/
def c1Expected : List DemandPdfPosition :=
  [⟨some "A1", "Alpha", 0, some 100, some 3, some 300⟩,
   ⟨none, "Bravo", 0, some 200, some 0, some 0⟩]

/-- C1: for the order [(A,10,100),(B,5,200)] with shipments [(A,4)] then
[(A,3),(B,5)], the reconciliation reports A remaining 3 with value 300, B
remaining 0 with value 0 (matching by product id, with name fallback for the
id-less line), and left-to-pay = max(0, order total − 1700), for every
positive integral order total S (stated in minor units 100·S). -/
theorem c1_reconciliation (S : ℤ) (hS : 0 < S) :
    buildDemandPdfData (some ((100 * S : ℤ) : ℚ)) c1OrderPositions c1ShipmentLists [] =
      (c1Expected, some (max 0 ((S : ℚ) - 1700))) := by
  have n1 : normalizeName "Alpha" = "alpha" := by decide
  have n2 : normalizeName "Bravo" = "bravo" := by decide
  have b1 : ("A1" == "A1") = true := by decide
  have b2 : ("alpha" == "alpha") = true := by decide
  have b3 : ("bravo" == "bravo") = true := by decide
  have b4 : ("alpha" == "bravo") = false := by decide
  have b5 : ("bravo" == "alpha") = false := by decide
  have hpos :
      (buildDemandPdfData (some ((100 * S : ℤ) : ℚ)) c1OrderPositions c1ShipmentLists []).1 =
        c1Expected := by
    norm_num +decide [buildDemandPdfData, demandQtyMaps, orderAggMaps, shippedAgg,
      pdfPositionOfOrderLine, unmatchedDemandLines, c1OrderPositions, c1ShipmentLists,
      c1Expected, maddQty, mset, mget, mhas, List.find?, n1, n2, b1, b2, b3, b4, b5]
  have hstep :
      (buildDemandPdfData (some ((100 * S : ℤ) : ℚ)) c1OrderPositions c1ShipmentLists []).2 =
        leftToPayOf (some ((100 * S : ℤ) : ℚ)) (computedTotalOf c1OrderPositions)
          ((shippedAgg (orderAggMaps c1OrderPositions) c1ShipmentLists).2.2) := rfl
  have hct : computedTotalOf c1OrderPositions = 2000 := by
    norm_num +decide [computedTotalOf, c1OrderPositions]
  have hsh : (shippedAgg (orderAggMaps c1OrderPositions) c1ShipmentLists).2.2 = 1700 := by
    norm_num +decide [shippedAgg, orderAggMaps, c1OrderPositions, c1ShipmentLists,
      maddQty, mset, mget, mhas, List.find?, n1, n2, b1, b2, b3, b4, b5]
  have hdiv : (((100 * S : ℤ) : ℚ)) / 100 = (S : ℚ) := by
    push_cast
    rw [mul_comm]
    exact mul_div_cancel_right₀ _ (by norm_num)
  have hr : round2 ((S : ℚ) - 1700) = (S : ℚ) - 1700 := by
    have hc : ((S : ℚ) - 1700) = (((S - 1700 : ℤ)) : ℚ) := by push_cast; ring
    rw [hc, round2_intCast]
  have hSQ : (0 : ℚ) < (S : ℚ) := by exact_mod_cast hS
  have hleft :
      (buildDemandPdfData (some ((100 * S : ℤ) : ℚ)) c1OrderPositions c1ShipmentLists []).2 =
        some (max 0 ((S : ℚ) - 1700)) := by
    rw [hstep, hct, hsh]
    unfold leftToPayOf
    simp only [Option.map_some', hdiv, if_pos hSQ, hr]
  rw [Prod.ext_iff]
  exact ⟨hpos, hleft⟩

/-- Witness for C1 at the concrete order total 2000: left-to-pay 300. -/
theorem c1_reconciliation_witness :
    (0 : ℤ) < 2000 ∧
      buildDemandPdfData (some ((100 * 2000 : ℤ) : ℚ)) c1OrderPositions c1ShipmentLists [] =
        (c1Expected, some (max 0 (((2000 : ℤ) : ℚ) - 1700))) :=
  ⟨by norm_num, c1_reconciliation 2000 (by norm_num)⟩

/-! ## Webhook reconciler (`POST /api/webhooks/mosklad`, claims C2, C3, C6)

The handler walks the batch's events in order inside a single `for` loop
with **no** per-event `try`/`catch`: an `await` that rejects (an entity
fetch without `.catch`, or a Telegram send whose `fetch` rejects)
propagates out of the loop to the HTTP framework.  The embedding models
each such fallible external call as an environment function returning
`Option`/`Bool`; a failing call makes `processEvent` return `.error ()`,
and `runBatch` then stops, mirroring the propagation.  Individually
caught sub-operations (currency, position and balance lookups, PDF
generation and delivery) never fail the event and are not modelled as
notifications.  Webhook payload parsing (`extractIdFromHref`,
`extractTypeFromHref`, the `event.orderId || event.entityId || …`
chains) is modelled by the resolved `Option String` fields of `WhEvent`;
`extractIdFromHref` never returns an empty string, so no JS-truthiness
test on the ids is needed. -/

/-- `s.toUpperCase()`. -/
def jsUpper (s : String) : String := String.mk (s.data.map Char.toUpper)

/-- `s.toLowerCase()`. -/
def jsLower (s : String) : String := String.mk (s.data.map Char.toLower)

/-- One webhook event: entity type (from `meta.type` or the href), raw action
string, the resolved entity id, the resolved counterparty id of a counterparty
event's href, and the `updatedFields` list (empty when absent). -/
structure WhEvent where
  entityType : Option String
  action : String
  entityId : Option String
  cpHrefId : Option String
  updatedFields : List String
  deriving Repr, DecidableEq

/-- The local user row found by `moskladCounterpartyId`; only the chat id is
behaviourally relevant (language and name fields feed message text only). -/
structure WhUser where
  telegramId : String
  deriving Repr, DecidableEq

/-- Result of `getDemand`: the agent counterparty id extracted from the
fetched demand and its `applicable` flag. -/
structure WhDemand where
  agentCounterpartyId : Option String
  applicable : Option Bool
  deriving Repr, DecidableEq

/-- Result of `getCustomerOrder`, same shape. -/
structure WhOrder where
  agentCounterpartyId : Option String
  applicable : Option Bool
  deriving Repr, DecidableEq

/-- Result of `getIncomingPayment`/`getCashIn`. -/
structure WhPayment where
  agentCounterpartyId : Option String
  deriving Repr, DecidableEq

/-- One admin's `adminSettings` row. -/
structure AdminSettingsRec where
  notifyNewUser : Bool
  notifyNewOrder : Bool
  notifyOrderUpdate : Bool
  notifyOrderStatus : Bool
  notifyPayment : Bool
  deriving Repr, DecidableEq

/-- The external world as seen by the webhook handler.  A `none` from a
fetch function models that `await` rejecting (no `.catch` at those call
sites); `sendFails c = true` models the Telegram `fetch` to chat `c`
rejecting; `cachePre` is the pre-existing state of the 60-second
`demand_created:<cid>` cache. -/
structure WhEnv where
  getDemandF : String → Option WhDemand
  getOrderF : String → Option WhOrder
  getPaymentF : String → Option WhPayment
  findUserByCounterparty : String → Option WhUser
  cachePre : String → Bool
  sendFails : String → Bool
  adminIds : List String
  adminSettingsOf : String → Option AdminSettingsRec

/-- Kinds of outbound Telegram text messages the handler sends. -/
inductive WhMsgKind
  | counterpartyDeletedMsg
  | demandCreateMsg
  | demandUpdateMsg
  | paymentMsg
  | orderCreateMsg
  | orderUpdateMsg
  | adminMsg (t : String)
  deriving Repr, DecidableEq

/-- One outbound message. -/
structure WhMsg where
  chatId : String
  kind : WhMsgKind
  deriving Repr, DecidableEq

/-- `sendTelegramMessage` / `sendTelegramMessageWithKeyboard`: emits the
message, or fails (the underlying `fetch` rejects and the exception
propagates). -/
def trySend (env : WhEnv) (chatId : String) (k : WhMsgKind) : List WhMsg × Bool :=
  if env.sendFails chatId then ([], false) else ([⟨chatId, k⟩], true)

/-- The per-type admin opt-in check of `notifyAdminsByType` (orderStatus and
orderUpdate merged for the orderUpdate type). -/
def shouldNotifyAdmin (s : AdminSettingsRec) (t : String) : Bool :=
  if t = "newUser" then s.notifyNewUser
  else if t = "newOrder" then s.notifyNewOrder
  else if t = "orderUpdate" then s.notifyOrderUpdate || s.notifyOrderStatus
  else if t = "payment" then s.notifyPayment
  else false

/-- `notifyAdminsByType`: walk the configured admin ids; admins without a user
row or settings row are skipped; an eligible admin gets a message, and a
failing send aborts the loop (the `await sendTelegramMessage` in this file has
no `.catch`). -/
def notifyAdminsGo (env : WhEnv) (t : String) : List String → List WhMsg × Bool
  | [] => ([], true)
  | a :: rest =>
    match env.adminSettingsOf a with
    | none => notifyAdminsGo env t rest
    | some s =>
      if shouldNotifyAdmin s t then
        let r := trySend env a (WhMsgKind.adminMsg t)
        if r.2 then
          let rr := notifyAdminsGo env t rest
          (r.1 ++ rr.1, rr.2)
        else (r.1, false)
      else notifyAdminsGo env t rest

/-- `cache.get("demand_created:" + cid)` during the batch: the pre-existing
marker, or one written earlier in this batch (the 60-second TTL outlives the
batch, and every in-batch write also adds the id to the in-batch set). -/
def cacheGet (env : WhEnv) (st : List String) (cid : String) : Bool :=
  env.cachePre cid || st.contains cid

/-- One iteration of the webhook event loop.  `st` is
`demandCreatedCounterparties`; the result is the messages sent before the
first uncaught failure, and either the updated set or `.error ()` when an
uncaught exception escaped the iteration. -/
def processEvent (env : WhEnv) (st : List String) (ev : WhEvent) :
    List WhMsg × Except Unit (List String) :=
  let act := jsUpper ev.action
  if ev.entityType = some "counterparty" ∧ act = "DELETE" then
    match ev.cpHrefId with
    | none => ([], .ok st)
    | some cid =>
      match env.findUserByCounterparty cid with
      | none => ([], .ok st)
      | some user =>
        let r := trySend env user.telegramId WhMsgKind.counterpartyDeletedMsg
        (r.1, if r.2 then .ok st else .error ())
  else
    let fs := ev.updatedFields.map jsLower
    if ev.entityType = some "demand" then
      match ev.entityId with
      | none => ([], .ok st)
      | some demandId =>
        if act = "DELETE" then ([], .ok st)
        else if fs.contains "applicable" then ([], .ok st)
        else if fs.contains "payments" || fs.contains "payedsum" then ([], .ok st)
        else
          match env.getDemandF demandId with
          | none => ([], .error ())
          | some demand =>
            match demand.agentCounterpartyId with
            | none => ([], .ok st)
            | some cid =>
              if demand.applicable = some false then ([], .ok st)
              else
                match env.findUserByCounterparty cid with
                | none => ([], .ok st)
                | some user =>
                  if act = "CREATE" then
                    let r1 := trySend env user.telegramId WhMsgKind.demandCreateMsg
                    if r1.2 then
                      let r2 := notifyAdminsGo env "newOrder" env.adminIds
                      (r1.1 ++ r2.1, if r2.2 then .ok (cid :: st) else .error ())
                    else (r1.1, .error ())
                  else
                    let r1 := trySend env user.telegramId WhMsgKind.demandUpdateMsg
                    (r1.1, if r1.2 then .ok st else .error ())
    else if ev.entityType = some "paymentin" ∨ ev.entityType = some "cashin" then
      if act ≠ "CREATE" then ([], .ok st)
      else
        match ev.entityId with
        | none => ([], .ok st)
        | some paymentId =>
          match env.getPaymentF paymentId with
          | none => ([], .error ())
          | some payment =>
            match payment.agentCounterpartyId with
            | none => ([], .ok st)
            | some cid =>
              match env.findUserByCounterparty cid with
              | none => ([], .ok st)
              | some user =>
                let r1 := trySend env user.telegramId WhMsgKind.paymentMsg
                if r1.2 then
                  let r2 := notifyAdminsGo env "payment" env.adminIds
                  (r1.1 ++ r2.1, if r2.2 then .ok st else .error ())
                else (r1.1, .error ())
    else
      match ev.entityId with
      | none => ([], .ok st)
      | some orderId =>
        if act = "DELETE" then ([], .ok st)
        else
          match env.getOrderF orderId with
          | none => ([], .error ())
          | some order =>
            if order.applicable = some false then ([], .ok st)
            else
              match order.agentCounterpartyId with
              | none => ([], .ok st)
              | some cid =>
                match env.findUserByCounterparty cid with
                | none => ([], .ok st)
                | some user =>
                  if act = "CREATE" then
                    let r1 := trySend env user.telegramId WhMsgKind.orderCreateMsg
                    if r1.2 then
                      let r2 := notifyAdminsGo env "newOrder" env.adminIds
                      (r1.1 ++ r2.1, if r2.2 then .ok st else .error ())
                    else (r1.1, .error ())
                  else if ¬ st.contains cid ∧ ¬ cacheGet env st cid ∧
                      ¬ fs.contains "demands" ∧ ¬ fs.contains "shipments" ∧
                      ¬ fs.contains "payments" ∧ ¬ fs.contains "payedsum" then
                    let r1 := trySend env user.telegramId WhMsgKind.orderUpdateMsg
                    if r1.2 then
                      let r2 := notifyAdminsGo env "orderUpdate" env.adminIds
                      (r1.1 ++ r2.1, if r2.2 then .ok st else .error ())
                    else (r1.1, .error ())
                  else ([], .ok st)

/-- The `for (const event of events)` loop: sequential, stopping at the first
uncaught exception (which the HTTP framework then turns into an error
response — the process itself survives). -/
def runBatch (env : WhEnv) : List String → List WhEvent → List WhMsg × Bool
  | _, [] => ([], true)
  | st, ev :: rest =>
    let r := processEvent env st ev
    match r.2 with
    | .error _ => (r.1, false)
    | .ok st2 =>
      let rr := runBatch env st2 rest
      (r.1 ++ rr.1, rr.2)

/-- Processing one webhook delivery starts with an empty in-batch set. -/
def processWebhookBatch (env : WhEnv) (events : List WhEvent) : List WhMsg × Bool :=
  runBatch env [] events

/-- The messages of a run addressed to one chat. -/
def msgsTo (chatId : String) (ms : List WhMsg) : List WhMsg :=
  ms.filter (fun m => m.chatId == chatId)

theorem notifyAdminsGo_chat (env : WhEnv) (t : String) :
    ∀ (l : List String) (m : WhMsg), m ∈ (notifyAdminsGo env t l).1 → m.chatId ∈ l := by
  intro l
  induction l with
  | nil => intro m hm; simp [notifyAdminsGo] at hm
  | cons a rest ih =>
    intro m hm
    unfold notifyAdminsGo at hm
    cases hs : env.adminSettingsOf a with
    | none =>
      simp only [hs] at hm
      exact List.mem_cons_of_mem a (ih m hm)
    | some s =>
      simp only [hs] at hm
      by_cases hn : shouldNotifyAdmin s t = true
      · rw [if_pos hn] at hm
        unfold trySend at hm
        by_cases hf : env.sendFails a = true
        · rw [if_pos hf] at hm
          simp at hm
        · simp only [if_neg hf] at hm
          simp at hm
          rcases hm with h1 | h2
          · rw [h1]
            exact List.mem_cons_self a rest
          · exact List.mem_cons_of_mem a (ih m h2)
      · rw [if_neg hn] at hm
        exact List.mem_cons_of_mem a (ih m hm)

theorem notifyAdminsGo_ok (env : WhEnv) (t : String)
    (hsend : ∀ c, env.sendFails c = false) :
    ∀ l : List String, (notifyAdminsGo env t l).2 = true := by
  intro l
  induction l with
  | nil => simp [notifyAdminsGo]
  | cons a rest ih =>
    unfold notifyAdminsGo
    cases hs : env.adminSettingsOf a with
    | none => simp only [hs]; exact ih
    | some s =>
      simp only [hs]
      by_cases hn : shouldNotifyAdmin s t = true
      · simp only [if_pos hn, trySend, hsend a, Bool.false_eq_true, if_neg]
        simp [ih]
      · simp only [if_neg hn]
        exact ih

theorem msgsTo_append (tg : String) (xs ys : List WhMsg) :
    msgsTo tg (xs ++ ys) = msgsTo tg xs ++ msgsTo tg ys := by
  unfold msgsTo
  exact List.filter_append xs ys

theorem msgsTo_admin_nil (env : WhEnv) (t tg : String) (h : tg ∉ env.adminIds) :
    msgsTo tg (notifyAdminsGo env t env.adminIds).1 = [] := by
  unfold msgsTo
  rw [List.filter_eq_nil_iff]
  intro m hm
  have hmem := notifyAdminsGo_chat env t env.adminIds m hm
  simp only [beq_iff_eq]
  intro hEq
  exact h (hEq ▸ hmem)

theorem processEvent_demand_create (env : WhEnv) (st : List String) (dId cpId : String)
    (demand : WhDemand) (user : WhUser)
    (hd : env.getDemandF dId = some demand)
    (hda : demand.agentCounterpartyId = some cpId)
    (hdap : demand.applicable ≠ some false)
    (hu : env.findUserByCounterparty cpId = some user)
    (hsend : ∀ c, env.sendFails c = false) :
    processEvent env st ⟨some "demand", "CREATE", some dId, none, []⟩ =
      (⟨user.telegramId, WhMsgKind.demandCreateMsg⟩ ::
          (notifyAdminsGo env "newOrder" env.adminIds).1,
        .ok (cpId :: st)) := by
  have hup : jsUpper "CREATE" = "CREATE" := by decide
  have hok := notifyAdminsGo_ok env "newOrder" hsend env.adminIds
  simp +decide [processEvent, hup, hd, hda, hu, trySend, hsend user.telegramId,
    hok, if_neg hdap]

theorem processEvent_order_update_demands (env : WhEnv) (st : List String) (oId : String)
    (order : WhOrder) (ho : env.getOrderF oId = some order) :
    processEvent env st ⟨some "customerorder", "UPDATE", some oId, none, ["demands"]⟩ =
      ([], .ok st) := by
  have hup : jsUpper "UPDATE" = "UPDATE" := by decide
  have hlow : jsLower "demands" = "demands" := by decide
  by_cases happ : order.applicable = some false
  · simp +decide [processEvent, hup, hlow, ho, happ]
  · cases hag : order.agentCounterpartyId with
    | none => simp +decide [processEvent, hup, hlow, ho, hag, if_neg happ]
    | some cid =>
      cases hu : env.findUserByCounterparty cid with
      | none => simp +decide [processEvent, hup, hlow, ho, hag, hu, if_neg happ]
      | some user => simp +decide [processEvent, hup, hlow, ho, hag, hu, if_neg happ]

/-- C2: for a webhook batch containing, in either order, an order-update event
for customer X with changed-field set {demands} and a shipment(demand)-create
event for customer X, processing sends exactly one notification to X — the
shipment-create one.  (The asynchronous PDF document delivery is a document,
not a text notification, and admin copies go to admin chat ids, which X is
assumed not to be.) -/
theorem c2_shipment_create_suppresses_order_update
    (env : WhEnv) (dId oId cpId : String) (demand : WhDemand) (order : WhOrder)
    (user : WhUser)
    (hd : env.getDemandF dId = some demand)
    (hda : demand.agentCounterpartyId = some cpId)
    (hdap : demand.applicable ≠ some false)
    (ho : env.getOrderF oId = some order)
    (hu : env.findUserByCounterparty cpId = some user)
    (hsend : ∀ c, env.sendFails c = false)
    (hnadm : user.telegramId ∉ env.adminIds) :
    msgsTo user.telegramId
        (processWebhookBatch env
          [⟨some "demand", "CREATE", some dId, none, []⟩,
           ⟨some "customerorder", "UPDATE", some oId, none, ["demands"]⟩]).1 =
      [⟨user.telegramId, WhMsgKind.demandCreateMsg⟩] ∧
    msgsTo user.telegramId
        (processWebhookBatch env
          [⟨some "customerorder", "UPDATE", some oId, none, ["demands"]⟩,
           ⟨some "demand", "CREATE", some dId, none, []⟩]).1 =
      [⟨user.telegramId, WhMsgKind.demandCreateMsg⟩] := by
  have h1 := processEvent_demand_create env [] dId cpId demand user hd hda hdap hu hsend
  have h2a := processEvent_order_update_demands env (cpId :: []) oId order ho
  have h2b := processEvent_order_update_demands env [] oId order ho
  have hadm := msgsTo_admin_nil env "newOrder" user.telegramId hnadm
  constructor
  · simp only [processWebhookBatch, runBatch, h1, h2a]
    simp only [List.append_nil]
    rw [show (⟨user.telegramId, WhMsgKind.demandCreateMsg⟩ ::
        (notifyAdminsGo env "newOrder" env.adminIds).1 : List WhMsg) =
        [⟨user.telegramId, WhMsgKind.demandCreateMsg⟩] ++
        (notifyAdminsGo env "newOrder" env.adminIds).1 from rfl]
    rw [msgsTo_append, hadm, List.append_nil]
    simp [msgsTo]
  · simp only [processWebhookBatch, runBatch, h2b, h1]
    simp only [List.nil_append, List.append_nil]
    rw [show (⟨user.telegramId, WhMsgKind.demandCreateMsg⟩ ::
        (notifyAdminsGo env "newOrder" env.adminIds).1 : List WhMsg) =
        [⟨user.telegramId, WhMsgKind.demandCreateMsg⟩] ++
        (notifyAdminsGo env "newOrder" env.adminIds).1 from rfl]
    rw [msgsTo_append, hadm, List.append_nil]
    simp [msgsTo]

/-- A concrete environment for the C2 witness: one demand d1 and one order o1
both belonging to counterparty c1, whose local user has chat id t1; no
pre-existing cache markers, no failing sends, no admins. -/
def c2Env : WhEnv where
  getDemandF := fun i => if i = "d1" then some ⟨some "c1", some true⟩ else none
  getOrderF := fun i => if i = "o1" then some ⟨some "c1", some true⟩ else none
  getPaymentF := fun _ => none
  findUserByCounterparty := fun c => if c = "c1" then some ⟨"t1"⟩ else none
  cachePre := fun _ => false
  sendFails := fun _ => false
  adminIds := []
  adminSettingsOf := fun _ => none

/-- Witness for C2 at the concrete environment `c2Env`. -/
theorem c2_witness :
    msgsTo "t1"
        (processWebhookBatch c2Env
          [⟨some "demand", "CREATE", some "d1", none, []⟩,
           ⟨some "customerorder", "UPDATE", some "o1", none, ["demands"]⟩]).1 =
      [⟨"t1", WhMsgKind.demandCreateMsg⟩] ∧
    msgsTo "t1"
        (processWebhookBatch c2Env
          [⟨some "customerorder", "UPDATE", some "o1", none, ["demands"]⟩,
           ⟨some "demand", "CREATE", some "d1", none, []⟩]).1 =
      [⟨"t1", WhMsgKind.demandCreateMsg⟩] := by
  have h := c2_shipment_create_suppresses_order_update c2Env "d1" "o1" "c1"
    ⟨some "c1", some true⟩ ⟨some "c1", some true⟩ ⟨"t1"⟩
    (by simp [c2Env]) (by simp) (by simp) (by simp [c2Env]) (by simp [c2Env])
    (fun c => by simp [c2Env]) (by simp [c2Env])
  exact h

/-- Concrete environment refuting C3: order o1 belongs to counterparty c1
(local user t1) and its fetched `applicable` flag is `true`. -/
def c3Env : WhEnv where
  getDemandF := fun _ => none
  getOrderF := fun i => if i = "o1" then some ⟨some "c1", some true⟩ else none
  getPaymentF := fun _ => none
  findUserByCounterparty := fun c => if c = "c1" then some ⟨"t1"⟩ else none
  cachePre := fun _ => false
  sendFails := fun _ => false
  adminIds := []
  adminSettingsOf := fun _ => none

/-- C3 counterexample: an order UPDATE event whose changed-field set is
exactly {applicable} DOES produce a notification when the fetched order's
`applicable` flag is true — the order-update suppression condition checks
demands/shipments/payments/payedSum but not `applicable`, and the void check
only fires on a fetched `applicable === false`. -/
theorem c3_counterexample :
    processWebhookBatch c3Env
        [⟨some "customerorder", "UPDATE", some "o1", none, ["applicable"]⟩] =
      ([⟨"t1", WhMsgKind.orderUpdateMsg⟩], true) := by
  have hup : jsUpper "UPDATE" = "UPDATE" := by decide
  have hlow : jsLower "applicable" = "applicable" := by decide
  simp +decide [processWebhookBatch, runBatch, processEvent, c3Env, trySend,
    notifyAdminsGo, cacheGet, hup, hlow]

/-- C3 amended: a demand/shipment update event whose changed-field set
contains `applicable` never produces a notification (the field-set filter
fires before any fetch); an order update event is suppressed on the
`applicable` voiding flag only via the fetched entity — when the fetched
order has `applicable = false` no notification is produced. -/
theorem c3_amended_voiding_filter :
    (∀ (env : WhEnv) (st : List String) (ev : WhEvent),
        ev.entityType = some "demand" →
        ((ev.updatedFields.map jsLower).contains "applicable") = true →
        processEvent env st ev = ([], .ok st)) ∧
    (∀ (env : WhEnv) (st : List String) (oId : String) (order : WhOrder)
        (fields : List String),
        env.getOrderF oId = some order → order.applicable = some false →
        processEvent env st ⟨some "customerorder", "UPDATE", some oId, none, fields⟩ =
          ([], .ok st)) := by
  constructor
  · intro env st ev het happ
    rcases ev with ⟨et, action, eid, cph, ufs⟩
    obtain rfl : et = some "demand" := het
    have happ2 : ((ufs.map jsLower).contains "applicable") = true := happ
    cases eid with
    | none => simp +decide [processEvent]
    | some demandId =>
      by_cases hdel : jsUpper action = "DELETE"
      · simp +decide [processEvent, hdel]
      · simp only [processEvent]
        rw [if_pos trivial, if_neg hdel, if_pos happ2]
        rw [if_neg (fun hc => absurd (Option.some.inj hc.1) (by decide))]
  · intro env st oId order fields ho happ
    have hup : jsUpper "UPDATE" = "UPDATE" := by decide
    simp +decide [processEvent, hup, ho, happ]

/-- Concrete environment for the C3 witness: order o2 is fetched voided. -/
def c3WitnessEnv : WhEnv where
  getDemandF := fun _ => none
  getOrderF := fun i => if i = "o2" then some ⟨some "c1", some false⟩ else none
  getPaymentF := fun _ => none
  findUserByCounterparty := fun c => if c = "c1" then some ⟨"t1"⟩ else none
  cachePre := fun _ => false
  sendFails := fun _ => false
  adminIds := []
  adminSettingsOf := fun _ => none

/-- Witness for the amended C3 at concrete events. -/
theorem c3_amended_witness :
    processEvent c3WitnessEnv []
        ⟨some "demand", "UPDATE", some "d1", none, ["applicable"]⟩ = ([], .ok []) ∧
    processEvent c3WitnessEnv []
        ⟨some "customerorder", "UPDATE", some "o2", none, ["applicable"]⟩ = ([], .ok []) :=
  ⟨c3_amended_voiding_filter.1 c3WitnessEnv []
      ⟨some "demand", "UPDATE", some "d1", none, ["applicable"]⟩ rfl (by decide),
   c3_amended_voiding_filter.2 c3WitnessEnv [] "o2" ⟨some "c1", some false⟩ ["applicable"]
      (by simp [c3WitnessEnv]) rfl⟩

/-- Concrete environment refuting C6: the fetch for demand d1 rejects
(`getDemand` has no `.catch` in the event loop), while order o1 is fully
resolvable. -/
def c6Env : WhEnv where
  getDemandF := fun _ => none
  getOrderF := fun i => if i = "o1" then some ⟨some "c1", some true⟩ else none
  getPaymentF := fun _ => none
  findUserByCounterparty := fun c => if c = "c1" then some ⟨"t1"⟩ else none
  cachePre := fun _ => false
  sendFails := fun _ => false
  adminIds := []
  adminSettingsOf := fun _ => none

/-- C6 counterexample: in the batch [failing demand update, valid order
create], the failure while handling the first event aborts the batch — the
second event produces no notification, although processed alone it would. -/
theorem c6_counterexample :
    processWebhookBatch c6Env
        [⟨some "demand", "UPDATE", some "d1", none, ["state"]⟩,
         ⟨some "customerorder", "CREATE", some "o1", none, []⟩] = ([], false) ∧
    processWebhookBatch c6Env
        [⟨some "customerorder", "CREATE", some "o1", none, []⟩] =
      ([⟨"t1", WhMsgKind.orderCreateMsg⟩], true) := by
  have hup : jsUpper "UPDATE" = "UPDATE" := by decide
  have hcr : jsUpper "CREATE" = "CREATE" := by decide
  have hlow : jsLower "state" = "state" := by decide
  constructor
  · simp +decide [processWebhookBatch, runBatch, processEvent, c6Env, trySend,
      notifyAdminsGo, cacheGet, hup, hcr, hlow]
  · simp +decide [processWebhookBatch, runBatch, processEvent, c6Env, trySend,
      notifyAdminsGo, cacheGet, hcr]

/-- C6 amended: webhook batch processing is NOT per-event fault-isolated — an
uncaught failure while handling one event ends the loop, so the remaining
events of the batch are not processed (the exception is surfaced to the HTTP
framework, which answers with an error response; the host process survives).
Only specific inner operations (currency, position and balance lookups, PDF
generation/delivery) are individually caught. -/
theorem c6_amended_batch_aborts_on_failure (env : WhEnv) (st : List String)
    (ev : WhEvent) (rest : List WhEvent) (ms : List WhMsg)
    (h : processEvent env st ev = (ms, .error ())) :
    runBatch env st (ev :: rest) = (ms, false) := by
  simp only [runBatch, h]

/-- Witness for the amended C6 at a concrete failing event. -/
theorem c6_amended_witness :
    runBatch c6Env []
        [⟨some "demand", "UPDATE", some "d1", none, ["state"]⟩,
         ⟨some "customerorder", "CREATE", some "o1", none, []⟩] = ([], false) := by
  refine c6_amended_batch_aborts_on_failure c6Env []
      ⟨some "demand", "UPDATE", some "d1", none, ["state"]⟩
      [⟨some "customerorder", "CREATE", some "o1", none, []⟩] [] ?_
  have hup : jsUpper "UPDATE" = "UPDATE" := by decide
  have hlow : jsLower "state" = "state" := by decide
  simp +decide [processEvent, c6Env, hup, hlow]

/-! ## POST /api/draft-order item validation (claim C10)

Source lines 179–203 of the API routes file: the fetched products are
turned into a `Map` keyed by id, each requested item is resolved against
it (unresolved items are dropped by the `.filter(Boolean)`), the
quantity is normalised with `Math.max(1, Math.round(q))` and the price
snapshotted in minor units; the request is answered with HTTP 400 when
the submitted list is empty ("Cart is empty") or when nothing survives
("No valid items"). -/

/-- A catalog product as returned by `getProductsByIds` (major-unit price). -/
structure ApiProduct where
  id : String
  name : String
  price : ℚ
  deriving Repr, DecidableEq

/-- One requested cart item. -/
structure ReqItem where
  id : String
  quantity : ℚ
  deriving Repr, DecidableEq

/-- One stored draft-order item (snapshotted name, minor-unit price). -/
structure DraftItem where
  productId : String
  name : String
  price : ℤ
  quantity : ℤ
  deriving Repr, DecidableEq

/-- `new Map(products.map(p => [p.id, p])).get(k)`: the last entry wins. -/
def productMapLookup (products : List ApiProduct) (k : String) : Option ApiProduct :=
  products.foldl (fun acc p => if p.id == k then some p else acc) none

/-- The draft item built for one resolved request item:
`Math.round(product.price * 100)` and `Math.max(1, Math.round(quantity))`. -/
def mkDraftItem (p : ApiProduct) (it : ReqItem) : DraftItem :=
  ⟨p.id, p.name, jround (p.price * 100), max 1 (jround it.quantity)⟩

/-- Outcome of the validation block. -/
inductive DraftItemsResult
  | badRequest (error : String)
  | valid (items : List DraftItem)
  deriving Repr, DecidableEq

/-- The item-validation block of POST /api/draft-order. -/
def validateDraftItems (products : List ApiProduct) (reqItems : List ReqItem) :
    DraftItemsResult :=
  if reqItems.isEmpty then .badRequest "Cart is empty"
  else
    let items := reqItems.filterMap
      (fun it => (productMapLookup products it.id).map (fun p => mkDraftItem p it))
    if items.isEmpty then .badRequest "No valid items"
    else .valid items

/-- C10: quantities are normalised to max(1, round(q)); items whose product id
does not resolve in the catalog are silently dropped; the request is rejected
with 400 exactly when the submitted list is empty or nothing survives; the
surviving normalised items, in order, are what gets stored. -/
theorem c10_draft_item_validation (products : List ApiProduct) (reqItems : List ReqItem) :
    ((∃ e, validateDraftItems products reqItems = .badRequest e) ↔
      (reqItems = [] ∨ ∀ it ∈ reqItems, productMapLookup products it.id = none)) ∧
    (∀ items, validateDraftItems products reqItems = .valid items →
      items = reqItems.filterMap
        (fun it => (productMapLookup products it.id).map (fun p => mkDraftItem p it)) ∧
      ∀ d ∈ items, ∃ it ∈ reqItems, ∃ p, productMapLookup products it.id = some p ∧
        d = mkDraftItem p it ∧ d.quantity = max 1 (jround it.quantity) ∧ 1 ≤ d.quantity) := by
  constructor
  · constructor
    · rintro ⟨e, he⟩
      unfold validateDraftItems at he
      by_cases h0 : reqItems.isEmpty = true
      · left
        exact List.isEmpty_iff.mp h0
      · rw [if_neg h0] at he
        right
        by_cases h1 : (reqItems.filterMap
            (fun it => (productMapLookup products it.id).map (fun p => mkDraftItem p it))).isEmpty = true
        · intro it hit
          have hnil := List.isEmpty_iff.mp h1
          have hall := List.filterMap_eq_nil.mp hnil it hit
          exact Option.map_eq_none'.mp hall
        · rw [if_neg h1] at he
          exact absurd he (by simp)
    · intro h
      rcases h with h | h
      · subst h
        exact ⟨"Cart is empty", rfl⟩
      · by_cases h0 : reqItems.isEmpty = true
        · refine ⟨"Cart is empty", ?_⟩
          unfold validateDraftItems
          rw [if_pos h0]
        · refine ⟨"No valid items", ?_⟩
          unfold validateDraftItems
          rw [if_neg h0, if_pos ?_]
          rw [List.isEmpty_iff]
          exact List.filterMap_eq_nil.mpr
            (fun it hit => by rw [h it hit]; rfl)
  · intro items hv
    unfold validateDraftItems at hv
    by_cases h0 : reqItems.isEmpty = true
    · rw [if_pos h0] at hv
      exact absurd hv (by simp)
    · rw [if_neg h0] at hv
      by_cases h1 : (reqItems.filterMap
          (fun it => (productMapLookup products it.id).map (fun p => mkDraftItem p it))).isEmpty = true
      · rw [if_pos h1] at hv
        exact absurd hv (by simp)
      · rw [if_neg h1] at hv
        have hEq : reqItems.filterMap
            (fun it => (productMapLookup products it.id).map (fun p => mkDraftItem p it)) = items := by
          cases hv
          rfl
        refine ⟨hEq.symm, ?_⟩
        intro d hd
        rw [← hEq] at hd
        obtain ⟨it, hit, hsome⟩ := List.mem_filterMap.mp hd
        obtain ⟨p, hp, hdp⟩ := Option.map_eq_some'.mp hsome
        refine ⟨it, hit, p, hp, hdp.symm, ?_, ?_⟩
        · rw [← hdp]
          rfl
        · rw [← hdp]
          exact le_max_left _ _

/-! ## Counterparty resolution and order submission (claims C4, C5, C7, C8)

The local store is modelled by explicit lists; the `prisma` user row is
keyed by `telegramId` (1:1 with the internal id, which the embedding
therefore reuses as the key for drafts and reminders).  `getOrCreateCounterparty`
(mosklad.ts 323–365) and the two submission entry points — the bot's
`order:confirm` action (bot file 532–600) and the immediate-submission
paths of POST /api/draft-order (API routes 205–326) — are embedded with
their ERP calls as environment outcomes. -/

/-- A local user row. -/
structure DbUser where
  telegramId : String
  phoneNumber : Option String
  moskladCounterpartyId : Option String
  defaultAddress : Option String
  pendingState : Option String
  deriving Repr, DecidableEq

/-- A draft-order line item (snapshotted name and minor-unit price). -/
structure DraftItemRec where
  productId : String
  name : String
  price : ℤ
  quantity : ℚ
  deriving Repr, DecidableEq

/-- A draft order row. -/
structure DraftRec where
  deliveryMethod : Option String
  orderNote : Option String
  addressText : Option String
  locationLat : Option ℚ
  locationLng : Option ℚ
  items : List DraftItemRec
  deriving Repr, DecidableEq

/-- A scheduled reminder row. -/
structure ReminderRec where
  userId : String
  dueAt : ℤ
  sentAt : Option ℤ
  deriving Repr, DecidableEq

/-- The local store. -/
structure OrchState where
  users : List DbUser
  drafts : List (String × DraftRec)
  reminders : List ReminderRec
  deriving Repr, DecidableEq

/-- Outcome of the ERP `GET /entity/counterparty/{id}` existence check:
found, a 404 (deleted externally), or any other failure. -/
inductive CpFetchOutcome
  | found
  | notFound404
  | failed
  deriving Repr, DecidableEq

/-- The ERP as seen by the submission flows.  `createdCounterpartyId = none`
models `createCounterparty` throwing; `createOrderFails` models
`createCustomerOrder` throwing. -/
structure ErpEnv where
  counterpartyFetch : String → CpFetchOutcome
  findByPhone : String → Option String
  createdCounterpartyId : Option String
  createOrderFails : Bool

/-- Outcome of `getOrCreateCounterparty`: a counterparty id, the distinct
`COUNTERPARTY_DELETED` error, or any other thrown error. -/
inductive GocOutcome
  | resolved (counterpartyId : String)
  | counterpartyDeleted
  | failed
  deriving Repr, DecidableEq

/-- `prisma.user.findUnique({ where: { telegramId } })`. -/
def findUserByTg (users : List DbUser) (tg : String) : Option DbUser :=
  users.find? (fun u => u.telegramId == tg)

/-- `prisma.user.update({ where: { telegramId } , data })`. -/
def updateUserByTg (users : List DbUser) (tg : String) (f : DbUser → DbUser) :
    List DbUser :=
  users.map (fun u => if u.telegramId == tg then f u else u)

/-- `getOrCreateCounterparty` (mosklad.ts 323–365): verify a cached id (a 404
unlinks it and raises `COUNTERPARTY_DELETED`); otherwise claim the ERP
counterparty found by phone — note: WITHOUT detaching any other local user —
or create a fresh one and link it. -/
def getOrCreateCounterparty (env : ErpEnv) (users : List DbUser) (tg phone : String) :
    List DbUser × GocOutcome :=
  match findUserByTg users tg with
  | none => (users, .failed)
  | some user =>
    match user.moskladCounterpartyId with
    | some cid =>
      match env.counterpartyFetch cid with
      | .found => (users, .resolved cid)
      | .failed => (users, .failed)
      | .notFound404 =>
        (updateUserByTg users tg (fun u => { u with moskladCounterpartyId := none }),
          .counterpartyDeleted)
    | none =>
      match env.findByPhone phone with
      | some existing =>
        (updateUserByTg users tg (fun u => { u with moskladCounterpartyId := some existing }),
          .resolved existing)
      | none =>
        match env.createdCounterpartyId with
        | none => (users, .failed)
        | some newId =>
          (updateUserByTg users tg (fun u => { u with moskladCounterpartyId := some newId }),
            .resolved newId)

/-- The claim step of the bot contact handler (bot file 869–880): first unlink
every OTHER local user holding the counterparty, then link the registering
user and clear its pending state. -/
def contactClaimCounterparty (users : List DbUser) (tg existingId : String) :
    List DbUser :=
  updateUserByTg
    (users.map (fun u =>
      if u.moskladCounterpartyId == some existingId && u.telegramId != tg then
        { u with moskladCounterpartyId := none }
      else u))
    tg
    (fun u => { u with moskladCounterpartyId := some existingId, pendingState := none })

/-- How many local users reference a given counterparty id. -/
def usersLinkedTo (users : List DbUser) (k : String) : ℕ :=
  (users.filter (fun u => u.moskladCounterpartyId == some k)).length

/-- JS truthiness of a nullable string (null/undefined and "" are falsy). -/
def strTruthy : Option String → Bool
  | some s => s ≠ ""
  | none => false

/-- JS truthiness of a nullable number (null/undefined and 0 are falsy). -/
def numTruthy : Option ℚ → Bool
  | some q => q ≠ 0
  | none => false

/-- `prisma.draftOrder.findUnique` by user. -/
def draftLookup (drafts : List (String × DraftRec)) (tg : String) : Option DraftRec :=
  (drafts.find? (fun p => p.1 == tg)).map Prod.snd

/-- `prisma.draftOrder.delete` (`clearDraft`, errors swallowed). -/
def deleteDraft (drafts : List (String × DraftRec)) (tg : String) :
    List (String × DraftRec) :=
  drafts.filter (fun p => p.1 != tg)

/-- `prisma.draftOrder.upsert` with full item replacement. -/
def upsertDraft (drafts : List (String × DraftRec)) (tg : String) (d : DraftRec) :
    List (String × DraftRec) :=
  if (drafts.find? (fun p => p.1 == tg)).isSome then
    drafts.map (fun p => if p.1 == tg then (tg, d) else p)
  else drafts ++ [(tg, d)]

/-- `handleCounterpartyDeleted` (bot file 1119–1129): full registration reset —
counterparty link, phone, saved address and pending flow state all cleared. -/
def resetRegistration (users : List DbUser) (tg : String) : List DbUser :=
  updateUserByTg users tg (fun u =>
    { u with moskladCounterpartyId := none, phoneNumber := none,
             defaultAddress := none, pendingState := none })

/-- `createOrderReminders` (reminders.ts 236–260): delete all of the user's
reminders, then create one pending reminder per configured day offset, due at
now + days·24h (in milliseconds). -/
def createOrderReminders (reminders : List ReminderRec) (userId : String)
    (reminderDays : List ℤ) (nowMs : ℤ) : List ReminderRec :=
  (reminders.filter (fun r => r.userId != userId)) ++
    reminderDays.map (fun d => ⟨userId, nowMs + d * 86400000, none⟩)

/-- Replies of the bot `order:confirm` action; `genericBotError` is the
generic try-later message of `bot.catch`. -/
inductive BotReply
  | registrationPrompt
  | cartEmpty
  | chooseDelivery
  | askAddress
  | counterpartyDeletedReset
  | orderCreated
  | genericBotError
  deriving Repr, DecidableEq

/-- The bot `order:confirm` callback (bot file 532–600): precondition checks
(registered user, non-empty draft, delivery method, address for delivery),
then counterparty resolution — `COUNTERPARTY_DELETED` escalates into the full
registration reset — then ERP order creation; only on success is the draft
cleared.  Any other thrown error reaches `bot.catch`, which replies with the
generic try-later message and leaves the draft in place.  The reminders table
is untouched on this path. -/
def orderConfirmAction (env : ErpEnv) (st : OrchState) (tg : String) :
    OrchState × BotReply :=
  match findUserByTg st.users tg with
  | none => (st, .registrationPrompt)
  | some user =>
    if ¬ strTruthy user.phoneNumber then (st, .registrationPrompt)
    else
      match draftLookup st.drafts tg with
      | none => (st, .cartEmpty)
      | some draft =>
        if draft.items.isEmpty then (st, .cartEmpty)
        else if ¬ strTruthy draft.deliveryMethod then (st, .chooseDelivery)
        else if draft.deliveryMethod = some "delivery" ∧
            ¬ strTruthy draft.addressText ∧ ¬ numTruthy draft.locationLat then
          (st, .askAddress)
        else
          match getOrCreateCounterparty env st.users tg (user.phoneNumber.getD "") with
          | (users2, .counterpartyDeleted) =>
            ({ st with users := resetRegistration users2 tg }, .counterpartyDeletedReset)
          | (users2, .failed) => ({ st with users := users2 }, .genericBotError)
          | (users2, .resolved cid) =>
            if env.createOrderFails then ({ st with users := users2 }, .genericBotError)
            else
              ({ st with users := users2, drafts := deleteDraft st.drafts tg },
                .orderCreated)

/-- Responses of POST /api/draft-order after validation. -/
inductive ApiResponse
  | orderName
  | draftId
  | awaitingLocation
  deriving Repr, DecidableEq

/-- `"lat,lng"` default-address encoding of the chosen delivery location. -/
def gpsString (lat lng : ℚ) : String := toString lat ++ "," ++ toString lng

/-- The draft row assembled by POST /api/draft-order
(`deliveryMethod: body.deliveryMethod || null`, address and coordinates
taken as sent). -/
def mkApiDraft (items : List DraftItemRec)
    (deliveryMethod orderNote addressDetails : Option String)
    (locationLat locationLng : Option ℚ) : DraftRec :=
  { deliveryMethod := if strTruthy deliveryMethod then deliveryMethod else none
    orderNote := orderNote
    addressText := addressDetails
    locationLat := locationLat
    locationLng := locationLng
    items := items }

/-- POST /api/draft-order after the item-validation block (API routes
205–326): upsert the draft with full item replacement, purge-and-recreate the
user's reminders (before and regardless of any submission), then attempt
immediate ERP submission on the pickup and delivery-with-coordinates paths —
where EVERY thrown error, including `COUNTERPARTY_DELETED`, is caught and
answered with the draft id — or push an address request (`awaitingLocation`)
for delivery without coordinates, or just keep the draft. -/
def draftOrderAfterValidation (env : ErpEnv) (st : OrchState) (tg : String)
    (items : List DraftItemRec) (deliveryMethod : Option String)
    (orderNote : Option String) (addressDetails : Option String)
    (locationLat locationLng : Option ℚ)
    (nowMs : ℤ) (reminderDays : List ℤ) : OrchState × ApiResponse :=
  let draft := mkApiDraft items deliveryMethod orderNote addressDetails locationLat locationLng
  let drafts2 := upsertDraft st.drafts tg draft
  let reminders2 := createOrderReminders st.reminders tg reminderDays nowMs
  match findUserByTg st.users tg with
  | none => (⟨st.users, drafts2, reminders2⟩, .draftId)
  | some user =>
    if deliveryMethod = some "pickup" ∧ strTruthy user.phoneNumber then
      match getOrCreateCounterparty env st.users tg (user.phoneNumber.getD "") with
      | (users2, .resolved cid) =>
        if env.createOrderFails then (⟨users2, drafts2, reminders2⟩, .draftId)
        else (⟨users2, deleteDraft drafts2 tg, reminders2⟩, .orderName)
      | (users2, _) => (⟨users2, drafts2, reminders2⟩, .draftId)
    else if deliveryMethod = some "delivery" ∧ strTruthy user.phoneNumber ∧
        numTruthy locationLat ∧ numTruthy locationLng then
      match getOrCreateCounterparty env st.users tg (user.phoneNumber.getD "") with
      | (users2, .resolved cid) =>
        if env.createOrderFails then (⟨users2, drafts2, reminders2⟩, .draftId)
        else
          let gps := gpsString (locationLat.getD 0) (locationLng.getD 0)
          (⟨updateUserByTg users2 tg (fun u => { u with defaultAddress := some gps }),
            deleteDraft drafts2 tg, reminders2⟩, .orderName)
      | (users2, _) => (⟨users2, drafts2, reminders2⟩, .draftId)
    else if deliveryMethod = some "delivery" ∧ strTruthy user.phoneNumber then
      (⟨st.users, drafts2, reminders2⟩, .awaitingLocation)
    else (⟨st.users, drafts2, reminders2⟩, .draftId)

/-- User A of the C5 counterexample: already linked to counterparty K. -/
def c5UserA : DbUser := ⟨"a", some "+1", some "K", none, none⟩

/-- User B of the C5 counterexample: same phone, not yet linked. -/
def c5UserB : DbUser := ⟨"b", some "+1", none, none, none⟩

/-- ERP for the C5 counterexample: phone +1 resolves to counterparty K. -/
def c5Erp : ErpEnv where
  counterpartyFetch := fun _ => .found
  findByPhone := fun p => if p = "+1" then some "K" else none
  createdCounterpartyId := none
  createOrderFails := false

/-- C5 counterexample: resolving counterparty K for user B via
`getOrCreateCounterparty`'s claim-by-phone path does NOT detach user A —
afterwards TWO local users reference K, refuting "at most one local user
referencing any given counterparty id" for this resolution path. -/
theorem c5_counterexample :
    usersLinkedTo (getOrCreateCounterparty c5Erp [c5UserA, c5UserB] "b" "+1").1 "K" = 2 ∧
    (getOrCreateCounterparty c5Erp [c5UserA, c5UserB] "b" "+1").2 = .resolved "K" := by
  constructor
  · decide
  · decide

/-- C5 amended: only the bot contact-registration path detaches the previous
holder: after `contactClaimCounterparty`, every user referencing the claimed
counterparty is the claiming user, and if the claiming user exists it does
reference it — so that path leaves exactly one holder; the
`getOrCreateCounterparty` claim-by-phone path links without detaching (see the
counterexample). -/
theorem c5_amended_contact_claim_unique (users : List DbUser) (tg existingId : String) :
    (∀ u ∈ contactClaimCounterparty users tg existingId,
        u.moskladCounterpartyId = some existingId → u.telegramId = tg) ∧
    ((∃ u ∈ users, u.telegramId = tg) →
      ∃ u ∈ contactClaimCounterparty users tg existingId,
        u.telegramId = tg ∧ u.moskladCounterpartyId = some existingId) := by
  constructor
  · intro u hu hlink
    unfold contactClaimCounterparty updateUserByTg at hu
    obtain ⟨v, hv, rfl⟩ := List.mem_map.mp hu
    by_cases htg : (v.telegramId == tg) = true
    · rw [if_pos htg]
      exact eq_of_beq htg
    · rw [if_neg htg] at hlink ⊢
      obtain ⟨w, hw, rfl⟩ := List.mem_map.mp hv
      by_cases hcond : (w.moskladCounterpartyId == some existingId && w.telegramId != tg) = true
      · rw [if_pos hcond] at hlink
        exact absurd hlink (by simp)
      · rw [if_neg hcond] at hlink htg
        have h1 : (w.moskladCounterpartyId == some existingId) = true := by
          rw [hlink]; exact beq_self_eq_true _
        have h2 : (w.telegramId != tg) = false := by
          cases h3 : (w.telegramId != tg) with
          | false => rfl
          | true => exact absurd (by rw [h1, h3]; rfl) hcond
        have h4 : (w.telegramId == tg) = true := by
          simpa [bne] using h2
        exact absurd h4 htg
  · rintro ⟨u, hu, htg⟩
    unfold contactClaimCounterparty updateUserByTg
    refine ⟨_, List.mem_map_of_mem _ (List.mem_map_of_mem _ hu), ?_⟩
    have hb : ((if (u.moskladCounterpartyId == some existingId && u.telegramId != tg) = true
          then { u with moskladCounterpartyId := none } else u).telegramId == tg) = true := by
      by_cases hc : (u.moskladCounterpartyId == some existingId && u.telegramId != tg) = true
      · rw [if_pos hc]
        exact beq_iff_eq.mpr htg
      · rw [if_neg hc]
        exact beq_iff_eq.mpr htg
    rw [if_pos hb]
    exact ⟨by
      by_cases hc : (u.moskladCounterpartyId == some existingId && u.telegramId != tg) = true
      · rw [if_pos hc]; exact htg
      · rw [if_neg hc]; exact htg, rfl⟩

/-- Witness for the amended C5 at the concrete two-user store. -/
theorem c5_amended_witness :
    (∀ u ∈ contactClaimCounterparty [c5UserA, c5UserB] "b" "K",
        u.moskladCounterpartyId = some "K" → u.telegramId = "b") ∧
    (∃ u ∈ contactClaimCounterparty [c5UserA, c5UserB] "b" "K",
        u.telegramId = "b" ∧ u.moskladCounterpartyId = some "K") :=
  ⟨(c5_amended_contact_claim_unique [c5UserA, c5UserB] "b" "K").1,
   (c5_amended_contact_claim_unique [c5UserA, c5UserB] "b" "K").2
      ⟨c5UserB, by decide, by decide⟩⟩

/-- C7: in the bot order state machine, a delivery draft without address text
and without coordinates can never reach submission — the confirm action
re-requests the address instead and changes nothing — while a pickup draft
with items is submittable as soon as the method is set, with no address
required (given a registered user and a cooperating ERP). -/
theorem c7_confirm_preconditions :
    (∀ (env : ErpEnv) (st : OrchState) (tg : String) (draft : DraftRec),
      draftLookup st.drafts tg = some draft →
      draft.deliveryMethod = some "delivery" →
      strTruthy draft.addressText = false →
      numTruthy draft.locationLat = false →
      (orderConfirmAction env st tg).2 ≠ .orderCreated) ∧
    (∀ (env : ErpEnv) (st : OrchState) (tg : String) (user : DbUser) (draft : DraftRec),
      findUserByTg st.users tg = some user →
      strTruthy user.phoneNumber = true →
      draftLookup st.drafts tg = some draft →
      draft.items ≠ [] →
      draft.deliveryMethod = some "delivery" →
      strTruthy draft.addressText = false →
      numTruthy draft.locationLat = false →
      orderConfirmAction env st tg = (st, .askAddress)) ∧
    (∀ (env : ErpEnv) (st : OrchState) (tg : String) (user : DbUser) (draft : DraftRec)
        (cid : String),
      findUserByTg st.users tg = some user →
      strTruthy user.phoneNumber = true →
      draftLookup st.drafts tg = some draft →
      draft.items ≠ [] →
      draft.deliveryMethod = some "pickup" →
      (getOrCreateCounterparty env st.users tg (user.phoneNumber.getD "")).2 =
        .resolved cid →
      env.createOrderFails = false →
      (orderConfirmAction env st tg).2 = .orderCreated) := by
  refine ⟨?_, ?_, ?_⟩
  · intro env st tg draft hd hm ha hl
    unfold orderConfirmAction
    cases hu : findUserByTg st.users tg with
    | none => simp
    | some user =>
      simp only []
      by_cases hp : strTruthy user.phoneNumber = true
      · rw [if_neg (by simp [hp])]
        simp only [hd]
        by_cases hi : draft.items.isEmpty = true
        · rw [if_pos hi]
          simp
        · rw [if_neg hi]
          have hdm : strTruthy draft.deliveryMethod = true := by
            rw [hm]
            decide
          rw [if_neg (by simp [hdm])]
          rw [if_pos ⟨hm, by simp [ha], by simp [hl]⟩]
          simp
      · rw [if_pos (by simp [hp])]
        simp
  · intro env st tg user draft hu hp hd hi hm ha hl
    unfold orderConfirmAction
    simp only [hu]
    rw [if_neg (by simp [hp])]
    simp only [hd]
    rw [if_neg (by simp [List.isEmpty_iff, hi])]
    have hdm : strTruthy draft.deliveryMethod = true := by
      rw [hm]
      decide
    rw [if_neg (by simp [hdm])]
    rw [if_pos ⟨hm, by simp [ha], by simp [hl]⟩]
  · intro env st tg user draft cid hu hp hd hi hm hg hc
    unfold orderConfirmAction
    simp only [hu]
    rw [if_neg (by simp [hp])]
    simp only [hd]
    rw [if_neg (by simp [List.isEmpty_iff, hi])]
    have hdm : strTruthy draft.deliveryMethod = true := by
      rw [hm]
      decide
    rw [if_neg (by simp [hdm])]
    rw [if_neg (by rw [hm]; rintro ⟨h1, h2⟩; exact absurd (Option.some.inj h1) (by decide))]
    rcases hgg : getOrCreateCounterparty env st.users tg (user.phoneNumber.getD "")
      with ⟨users2, out⟩
    rw [hgg] at hg
    obtain rfl : out = .resolved cid := hg
    simp only [hgg]
    rw [if_neg (by simp [hc])]

/-- The registered user of the C7/C4 witnesses. -/
def c7User : DbUser := ⟨"t", some "+7", some "K", none, none⟩

/-- A delivery draft with items but no address and no coordinates. -/
def c7DraftDelivery : DraftRec := ⟨some "delivery", none, none, none, none, [⟨"p1", "P", 100, 1⟩]⟩

/-- A pickup draft with items. -/
def c7DraftPickup : DraftRec := ⟨some "pickup", none, none, none, none, [⟨"p1", "P", 100, 1⟩]⟩

/-- A fully cooperating ERP. -/
def c7Erp : ErpEnv where
  counterpartyFetch := fun _ => .found
  findByPhone := fun _ => none
  createdCounterpartyId := none
  createOrderFails := false

def c7StateDelivery : OrchState := ⟨[c7User], [("t", c7DraftDelivery)], []⟩

def c7StatePickup : OrchState := ⟨[c7User], [("t", c7DraftPickup)], []⟩

/-- Witness for C7 at concrete delivery and pickup drafts. -/
theorem c7_witness :
    (orderConfirmAction c7Erp c7StateDelivery "t").2 ≠ .orderCreated ∧
    orderConfirmAction c7Erp c7StateDelivery "t" = (c7StateDelivery, .askAddress) ∧
    (orderConfirmAction c7Erp c7StatePickup "t").2 = .orderCreated :=
  ⟨c7_confirm_preconditions.1 c7Erp c7StateDelivery "t" c7DraftDelivery
      (by decide) (by decide) (by decide) (by decide),
   c7_confirm_preconditions.2.1 c7Erp c7StateDelivery "t" c7User c7DraftDelivery
      (by decide) (by decide) (by decide) (by decide) (by decide) (by decide) (by decide),
   c7_confirm_preconditions.2.2 c7Erp c7StatePickup "t" c7User c7DraftPickup "K"
      (by decide) (by decide) (by decide) (by decide) (by decide) (by decide) (by decide)⟩

/-- After `resetRegistration`, the targeted user's registration fields are all
cleared. -/
theorem resetRegistration_spec (users : List DbUser) (tg : String) :
    ∀ u ∈ resetRegistration users tg, u.telegramId = tg →
      u.phoneNumber = none ∧ u.moskladCounterpartyId = none ∧
      u.defaultAddress = none ∧ u.pendingState = none := by
  intro u hu htg
  unfold resetRegistration updateUserByTg at hu
  obtain ⟨w, hw, rfl⟩ := List.mem_map.mp hu
  by_cases hc : (w.telegramId == tg) = true
  · rw [if_pos hc]
    exact ⟨rfl, rfl, rfl, rfl⟩
  · rw [if_neg hc] at htg
    exact absurd (beq_iff_eq.mpr htg) hc

/-- `updateUserByTg` with a field update that does not touch chat id, phone or
saved address leaves those fields of every row intact. -/
theorem updateUserByTg_preserves (users : List DbUser) (tg : String) (f : DbUser → DbUser)
    (hf : ∀ w, (f w).telegramId = w.telegramId ∧ (f w).phoneNumber = w.phoneNumber ∧
      (f w).defaultAddress = w.defaultAddress) :
    ∀ u ∈ updateUserByTg users tg f, ∃ w ∈ users,
      u.telegramId = w.telegramId ∧ u.phoneNumber = w.phoneNumber ∧
      u.defaultAddress = w.defaultAddress := by
  intro u hu
  unfold updateUserByTg at hu
  obtain ⟨w, hw, rfl⟩ := List.mem_map.mp hu
  by_cases hc : (w.telegramId == tg) = true
  · rw [if_pos hc]
    exact ⟨w, hw, (hf w).1, (hf w).2.1, (hf w).2.2⟩
  · rw [if_neg hc]
    exact ⟨w, hw, rfl, rfl, rfl⟩

/-- `getOrCreateCounterparty` never changes a chat id, a phone number or a
saved default address — it only touches the counterparty link. -/
theorem getOrCreateCounterparty_preserves (env : ErpEnv) (users : List DbUser)
    (tg phone : String) :
    ∀ u ∈ (getOrCreateCounterparty env users tg phone).1, ∃ w ∈ users,
      u.telegramId = w.telegramId ∧ u.phoneNumber = w.phoneNumber ∧
      u.defaultAddress = w.defaultAddress := by
  intro u hu
  unfold getOrCreateCounterparty at hu
  cases h1 : findUserByTg users tg with
  | none =>
    simp only [h1] at hu
    exact ⟨u, hu, rfl, rfl, rfl⟩
  | some user =>
    simp only [h1] at hu
    cases h2 : user.moskladCounterpartyId with
    | some cid =>
      simp only [h2] at hu
      cases h3 : env.counterpartyFetch cid with
      | found =>
        simp only [h3] at hu
        exact ⟨u, hu, rfl, rfl, rfl⟩
      | failed =>
        simp only [h3] at hu
        exact ⟨u, hu, rfl, rfl, rfl⟩
      | notFound404 =>
        simp only [h3] at hu
        exact updateUserByTg_preserves users tg
          (fun u => { u with moskladCounterpartyId := none })
          (fun w => ⟨rfl, rfl, rfl⟩) u hu
    | none =>
      simp only [h2] at hu
      cases h4 : env.findByPhone phone with
      | some existing =>
        simp only [h4] at hu
        exact updateUserByTg_preserves users tg
          (fun u => { u with moskladCounterpartyId := some existing })
          (fun w => ⟨rfl, rfl, rfl⟩) u hu
      | none =>
        simp only [h4] at hu
        cases h5 : env.createdCounterpartyId with
        | none =>
          simp only [h5] at hu
          exact ⟨u, hu, rfl, rfl, rfl⟩
        | some newId =>
          simp only [h5] at hu
          exact updateUserByTg_preserves users tg
            (fun u => { u with moskladCounterpartyId := some newId })
            (fun w => ⟨rfl, rfl, rfl⟩) u hu

/-- ERP for the C4 counterexample: the cached counterparty has been deleted
externally (every existence check 404s). -/
def c4Erp : ErpEnv where
  counterpartyFetch := fun _ => .notFound404
  findByPhone := fun _ => none
  createdCounterpartyId := none
  createOrderFails := false

def c4State : OrchState := ⟨[c7User], [], []⟩

/-- C4 counterexample: on the HTTP draft-order pickup path, a
counterparty-deleted failure is answered with the same draft-id retry
response as a transient fault, and the user's phone number is NOT reset
(only the counterparty link is cleared inside the resolver) — refuting the
claim for this entry point. -/
theorem c4_counterexample :
    (draftOrderAfterValidation c4Erp c4State "t" [⟨"p1", "P", 100, 1⟩] (some "pickup")
        none none none none 0 []).2 = .draftId ∧
    (draftOrderAfterValidation c4Erp c4State "t" [⟨"p1", "P", 100, 1⟩] (some "pickup")
        none none none none 0 []).1.users = [⟨"t", some "+7", none, none, none⟩] := by
  constructor
  · decide
  · decide

/-- C4 amended: on the BOT confirm path an ERP order-creation failure leaves
the draft in place and yields the generic try-later reply, and a
counterparty-deleted resolution escalates into the distinct re-registration
reset (phone, counterparty link, saved address, pending state all cleared);
on the HTTP draft-order path EVERY submission failure — counterparty-deleted
included — is caught and answered with the draft id, the draft is preserved,
and no registration reset happens (phones and saved addresses survive). -/
theorem c4_submission_failure_handling :
    (∀ (env : ErpEnv) (st : OrchState) (tg : String) (user : DbUser) (draft : DraftRec)
        (cid : String),
      findUserByTg st.users tg = some user →
      strTruthy user.phoneNumber = true →
      draftLookup st.drafts tg = some draft →
      draft.items ≠ [] →
      draft.deliveryMethod = some "pickup" →
      (getOrCreateCounterparty env st.users tg (user.phoneNumber.getD "")).2 =
        .resolved cid →
      env.createOrderFails = true →
      (orderConfirmAction env st tg).1.drafts = st.drafts ∧
      (orderConfirmAction env st tg).2 = .genericBotError) ∧
    (∀ (env : ErpEnv) (st : OrchState) (tg : String) (user : DbUser) (draft : DraftRec),
      findUserByTg st.users tg = some user →
      strTruthy user.phoneNumber = true →
      draftLookup st.drafts tg = some draft →
      draft.items ≠ [] →
      draft.deliveryMethod = some "pickup" →
      (getOrCreateCounterparty env st.users tg (user.phoneNumber.getD "")).2 =
        .counterpartyDeleted →
      (orderConfirmAction env st tg).2 = .counterpartyDeletedReset ∧
      (orderConfirmAction env st tg).1.drafts = st.drafts ∧
      ∀ u ∈ (orderConfirmAction env st tg).1.users, u.telegramId = tg →
        u.phoneNumber = none ∧ u.moskladCounterpartyId = none ∧
        u.defaultAddress = none ∧ u.pendingState = none) ∧
    (∀ (env : ErpEnv) (st : OrchState) (tg : String) (user : DbUser)
        (items : List DraftItemRec) (onote ad : Option String) (lat lng : Option ℚ)
        (now : ℤ) (days : List ℤ) (cid : String),
      findUserByTg st.users tg = some user →
      strTruthy user.phoneNumber = true →
      (getOrCreateCounterparty env st.users tg (user.phoneNumber.getD "")).2 =
        .resolved cid →
      env.createOrderFails = true →
      (draftOrderAfterValidation env st tg items (some "pickup") onote ad lat lng now days).2 =
        .draftId ∧
      (draftOrderAfterValidation env st tg items (some "pickup") onote ad lat lng now days).1.drafts =
        upsertDraft st.drafts tg (mkApiDraft items (some "pickup") onote ad lat lng)) ∧
    (∀ (env : ErpEnv) (st : OrchState) (tg : String) (user : DbUser)
        (items : List DraftItemRec) (onote ad : Option String) (lat lng : Option ℚ)
        (now : ℤ) (days : List ℤ),
      findUserByTg st.users tg = some user →
      strTruthy user.phoneNumber = true →
      (getOrCreateCounterparty env st.users tg (user.phoneNumber.getD "")).2 =
        .counterpartyDeleted →
      (draftOrderAfterValidation env st tg items (some "pickup") onote ad lat lng now days).2 =
        .draftId ∧
      (draftOrderAfterValidation env st tg items (some "pickup") onote ad lat lng now days).1.drafts =
        upsertDraft st.drafts tg (mkApiDraft items (some "pickup") onote ad lat lng) ∧
      ∀ u ∈ (draftOrderAfterValidation env st tg items (some "pickup") onote ad lat lng now days).1.users,
        ∃ w ∈ st.users, u.telegramId = w.telegramId ∧ u.phoneNumber = w.phoneNumber ∧
          u.defaultAddress = w.defaultAddress) := by
  refine ⟨?_, ?_, ?_, ?_⟩
  · intro env st tg user draft cid hu hp hd hi hm hg hc
    have heq : orderConfirmAction env st tg =
        ({ st with users :=
            (getOrCreateCounterparty env st.users tg (user.phoneNumber.getD "")).1 },
          .genericBotError) := by
      unfold orderConfirmAction
      simp only [hu]
      rw [if_neg (by simp [hp])]
      simp only [hd]
      rw [if_neg (by simp [List.isEmpty_iff, hi])]
      have hdm : strTruthy draft.deliveryMethod = true := by
        rw [hm]
        decide
      rw [if_neg (by simp [hdm])]
      rw [if_neg (by rw [hm]; rintro ⟨h1, h2⟩; exact absurd (Option.some.inj h1) (by decide))]
      rcases hgg : getOrCreateCounterparty env st.users tg (user.phoneNumber.getD "")
        with ⟨users2, out⟩
      rw [hgg] at hg
      obtain rfl : out = .resolved cid := hg
      simp only [hgg]
      rw [if_pos hc]
    rw [heq]
    exact ⟨rfl, rfl⟩
  · intro env st tg user draft hu hp hd hi hm hg
    have heq : orderConfirmAction env st tg =
        ({ st with users :=
                     resetRegistration
                       (getOrCreateCounterparty env st.users tg
                         (user.phoneNumber.getD "")).1 tg },
          .counterpartyDeletedReset) := by
      unfold orderConfirmAction
      simp only [hu]
      rw [if_neg (by simp [hp])]
      simp only [hd]
      rw [if_neg (by simp [List.isEmpty_iff, hi])]
      have hdm : strTruthy draft.deliveryMethod = true := by
        rw [hm]
        decide
      rw [if_neg (by simp [hdm])]
      rw [if_neg (by rw [hm]; rintro ⟨h1, h2⟩; exact absurd (Option.some.inj h1) (by decide))]
      rcases hgg : getOrCreateCounterparty env st.users tg (user.phoneNumber.getD "")
        with ⟨users2, out⟩
      rw [hgg] at hg
      obtain rfl : out = .counterpartyDeleted := hg
      simp only [hgg]
    rw [heq]
    exact ⟨rfl, rfl, resetRegistration_spec _ tg⟩
  · intro env st tg user items onote ad lat lng now days cid hu hp hg hc
    have heq : draftOrderAfterValidation env st tg items (some "pickup") onote ad lat lng now days =
        (⟨(getOrCreateCounterparty env st.users tg (user.phoneNumber.getD "")).1,
          upsertDraft st.drafts tg (mkApiDraft items (some "pickup") onote ad lat lng),
          createOrderReminders st.reminders tg days now⟩, .draftId) := by
      unfold draftOrderAfterValidation
      simp only [hu]
      simp only [eq_self_iff_true, true_and]
      rw [if_pos hp]
      rcases hgg : getOrCreateCounterparty env st.users tg (user.phoneNumber.getD "")
        with ⟨users2, out⟩
      rw [hgg] at hg
      obtain rfl : out = .resolved cid := hg
      simp only [hgg]
      rw [if_pos hc]
    rw [heq]
    exact ⟨rfl, rfl⟩
  · intro env st tg user items onote ad lat lng now days hu hp hg
    have heq : draftOrderAfterValidation env st tg items (some "pickup") onote ad lat lng now days =
        (⟨(getOrCreateCounterparty env st.users tg (user.phoneNumber.getD "")).1,
          upsertDraft st.drafts tg (mkApiDraft items (some "pickup") onote ad lat lng),
          createOrderReminders st.reminders tg days now⟩, .draftId) := by
      unfold draftOrderAfterValidation
      simp only [hu]
      simp only [eq_self_iff_true, true_and]
      rw [if_pos hp]
      rcases hgg : getOrCreateCounterparty env st.users tg (user.phoneNumber.getD "")
        with ⟨users2, out⟩
      rw [hgg] at hg
      obtain rfl : out = .counterpartyDeleted := hg
      simp only [hgg]
    rw [heq]
    exact ⟨rfl, rfl, getOrCreateCounterparty_preserves env st.users tg _⟩

/-- A resolvable counterparty but a failing `createCustomerOrder`. -/
def c4ErpFail : ErpEnv where
  counterpartyFetch := fun _ => .found
  findByPhone := fun _ => none
  createdCounterpartyId := none
  createOrderFails := true

/-- Witness for the amended C4 on all four paths at concrete stores. -/
theorem c4_witness :
    ((orderConfirmAction c4ErpFail c7StatePickup "t").1.drafts = c7StatePickup.drafts ∧
      (orderConfirmAction c4ErpFail c7StatePickup "t").2 = .genericBotError) ∧
    ((orderConfirmAction c4Erp c7StatePickup "t").2 = .counterpartyDeletedReset ∧
      (orderConfirmAction c4Erp c7StatePickup "t").1.drafts = c7StatePickup.drafts ∧
      ∀ u ∈ (orderConfirmAction c4Erp c7StatePickup "t").1.users, u.telegramId = "t" →
        u.phoneNumber = none ∧ u.moskladCounterpartyId = none ∧
        u.defaultAddress = none ∧ u.pendingState = none) ∧
    ((draftOrderAfterValidation c4ErpFail c4State "t" [] (some "pickup")
        none none none none 0 []).2 = .draftId ∧
      (draftOrderAfterValidation c4ErpFail c4State "t" [] (some "pickup")
        none none none none 0 []).1.drafts =
        upsertDraft c4State.drafts "t" (mkApiDraft [] (some "pickup") none none none none)) ∧
    ((draftOrderAfterValidation c4Erp c4State "t" [] (some "pickup")
        none none none none 0 []).2 = .draftId ∧
      (draftOrderAfterValidation c4Erp c4State "t" [] (some "pickup")
        none none none none 0 []).1.drafts =
        upsertDraft c4State.drafts "t" (mkApiDraft [] (some "pickup") none none none none) ∧
      ∀ u ∈ (draftOrderAfterValidation c4Erp c4State "t" [] (some "pickup")
          none none none none 0 []).1.users,
        ∃ w ∈ c4State.users, u.telegramId = w.telegramId ∧ u.phoneNumber = w.phoneNumber ∧
          u.defaultAddress = w.defaultAddress) :=
  ⟨c4_submission_failure_handling.1 c4ErpFail c7StatePickup "t" c7User c7DraftPickup "K"
      (by decide) (by decide) (by decide) (by decide) (by decide) (by decide) (by decide),
   c4_submission_failure_handling.2.1 c4Erp c7StatePickup "t" c7User c7DraftPickup
      (by decide) (by decide) (by decide) (by decide) (by decide) (by decide),
   c4_submission_failure_handling.2.2.1 c4ErpFail c4State "t" c7User [] none none none none
      0 [] "K" (by decide) (by decide) (by decide) (by decide),
   c4_submission_failure_handling.2.2.2 c4Erp c4State "t" c7User [] none none none none
      0 [] (by decide) (by decide) (by decide)⟩

/-- State for the C8 counterexample: a registered user with one old reminder
and no draft. -/
def c8State : OrchState := ⟨[c7User], [], [⟨"t", 5, none⟩]⟩

/-- Bot-side state for the C8 counterexample: a submittable pickup draft and
one pre-existing reminder. -/
def c8BotState : OrchState := ⟨[c7User], [("t", c7DraftPickup)], [⟨"t", 5, none⟩]⟩

/-- C8 counterexample: a draft-order request that submits NO order (no
delivery method, response is the deferred draft id) still purges the user's
reminders and creates a fresh batch; conversely a successful bot-path
submission creates no reminders at all — so reminders are not created
"exactly when an order is submitted". -/
theorem c8_counterexample :
    (draftOrderAfterValidation c7Erp c8State "t" [⟨"p1", "P", 100, 1⟩] none
        none none none none 0 [1, 2]).2 = .draftId ∧
    (draftOrderAfterValidation c7Erp c8State "t" [⟨"p1", "P", 100, 1⟩] none
        none none none none 0 [1, 2]).1.reminders =
      [⟨"t", 86400000, none⟩, ⟨"t", 172800000, none⟩] ∧
    (orderConfirmAction c7Erp c8BotState "t").2 = .orderCreated ∧
    (orderConfirmAction c7Erp c8BotState "t").1.reminders = [⟨"t", 5, none⟩] := by
  refine ⟨?_, ?_, ?_, ?_⟩
  · decide
  · decide
  · decide
  · decide

/-- C8 amended: `createOrderReminders` purges all of the user's reminders and
creates exactly one pending reminder per configured day offset, due at
now + offset·24h, leaving other users' reminders intact — so at most the
configured number is live per user; but it is invoked on EVERY draft-order
request (submitted or not), and the bot-path submission never invokes it. -/
theorem c8_reminder_lifecycle :
    (∀ (rs : List ReminderRec) (u : String) (days : List ℤ) (now : ℤ),
      (createOrderReminders rs u days now).filter (fun r => r.userId == u) =
        days.map (fun d => ⟨u, now + d * 86400000, none⟩) ∧
      (createOrderReminders rs u days now).filter (fun r => r.userId != u) =
        rs.filter (fun r => r.userId != u) ∧
      ((createOrderReminders rs u days now).filter (fun r => r.userId == u)).length =
        days.length) ∧
    (∀ (env : ErpEnv) (st : OrchState) (tg : String) (items : List DraftItemRec)
        (dm onote ad : Option String) (lat lng : Option ℚ) (now : ℤ) (days : List ℤ),
      (draftOrderAfterValidation env st tg items dm onote ad lat lng now days).1.reminders =
        createOrderReminders st.reminders tg days now) ∧
    (∀ (env : ErpEnv) (st : OrchState) (tg : String),
      (orderConfirmAction env st tg).1.reminders = st.reminders) := by
  refine ⟨?_, ?_, ?_⟩
  · intro rs u days now
    have hmapEq : (days.map (fun d => (⟨u, now + d * 86400000, none⟩ : ReminderRec))).filter
        (fun r => r.userId == u) =
        days.map (fun d => (⟨u, now + d * 86400000, none⟩ : ReminderRec)) := by
      rw [List.filter_eq_self]
      intro r hr
      obtain ⟨d, hd, rfl⟩ := List.mem_map.mp hr
      exact beq_self_eq_true u
    have hkeepNone : (rs.filter (fun r => r.userId != u)).filter (fun r => r.userId == u) = [] := by
      rw [List.filter_eq_nil_iff]
      intro r hr
      have hne := (List.mem_filter.mp hr).2
      simp only [bne] at hne
      simp only [Bool.not_eq_true]
      cases hbe : (r.userId == u) with
      | false => rfl
      | true => rw [hbe] at hne; exact absurd hne (by decide)
    have hmapNone : (days.map (fun d => (⟨u, now + d * 86400000, none⟩ : ReminderRec))).filter
        (fun r => r.userId != u) = [] := by
      rw [List.filter_eq_nil_iff]
      intro r hr
      obtain ⟨d, hd, rfl⟩ := List.mem_map.mp hr
      simp [bne]
    have hkeepSelf : (rs.filter (fun r => r.userId != u)).filter (fun r => r.userId != u) =
        rs.filter (fun r => r.userId != u) := by
      rw [List.filter_eq_self]
      intro r hr
      exact (List.mem_filter.mp hr).2
    refine ⟨?_, ?_, ?_⟩
    · unfold createOrderReminders
      rw [List.filter_append, hmapEq, hkeepNone, List.nil_append]
    · unfold createOrderReminders
      rw [List.filter_append, hmapNone, hkeepSelf, List.append_nil]
    · unfold createOrderReminders
      rw [List.filter_append, hmapEq, hkeepNone, List.nil_append, List.length_map]
  · intro env st tg items dm onote ad lat lng now days
    unfold draftOrderAfterValidation
    cases hu : findUserByTg st.users tg with
    | none => rfl
    | some user =>
      simp only [hu]
      repeat' split
      all_goals rfl
  · intro env st tg
    unfold orderConfirmAction
    cases hu : findUserByTg st.users tg with
    | none => rfl
    | some user =>
      simp only [hu]
      repeat' split
      all_goals rfl

/-- Catalog for the C10 witness: one product with a fractional price. -/
def c10Catalog : List ApiProduct := [⟨"p1", "Widget", 3 / 2⟩]

/-- Request for the C10 witness: a fractional quantity for p1 (normalised to
3) and an unknown product id (dropped). -/
def c10Request : List ReqItem := [⟨"p1", 5 / 2⟩, ⟨"zz", 1⟩]

/-- Witness for C10: the surviving normalised item list at a concrete
request. -/
theorem c10_witness :
    [(⟨"p1", "Widget", 150, 3⟩ : DraftItem)] = c10Request.filterMap
      (fun it => (productMapLookup c10Catalog it.id).map (fun p => mkDraftItem p it)) ∧
    ∀ d ∈ [(⟨"p1", "Widget", 150, 3⟩ : DraftItem)],
      ∃ it ∈ c10Request, ∃ p, productMapLookup c10Catalog it.id = some p ∧
        d = mkDraftItem p it ∧ d.quantity = max 1 (jround it.quantity) ∧ 1 ≤ d.quantity :=
  (c10_draft_item_validation c10Catalog c10Request).2 [⟨"p1", "Widget", 150, 3⟩]
    (by norm_num +decide [validateDraftItems, productMapLookup, mkDraftItem, jround,
      c10Catalog, c10Request, List.filterMap]
    )
